import Mathlib

/-!
Verification model of `src/codes/run.py`, a command-line script that trains an
autoencoder on an omics CSV and then fits/evaluates scikit-learn style
classifiers on latent codes combined with clinical ("biomed") features.

The script is shallowly embedded: `run` maps the parsed command-line arguments
(`Args`) and an environment (`Env`: file contents, filesystem predicates, and
the opaque numeric behaviour of the external ML libraries) to the ordered list
of observable effects (`Event`) the script performs, together with the
`sys.exit` message when the script aborts.  Numeric values computed inside the
external libraries (trained weights, per-epoch losses, classifier scores, the
seeded shuffle of `train_test_split`) are abstracted as functions supplied by
the environment; everything the script itself does with them (slicing,
concatenation, reshaping, path construction, control flow, the order and
arguments of the library calls) is modelled concretely.
-/

namespace MultiOmics

/-- Feature rows and tables: CSV cell values are modelled as rationals
(the script works with float32 data; no claim depends on rounding). -/
abbrev Table : Type := List (List ℚ)

/-- Parsed command-line arguments of `run.py` (`parse_args`), with the
defaults declared by the argument parser. -/
structure Args where
  autoencoder_model : String := "vanilla"
  classifier_model : String := "all"
  omics_data : String := "../omics_data/cnv_methyl_rnaseq.csv"
  biomed_data : Option String := none
  merged_data : Option String := none
  load_autoencoder : Option String := none
  train_autoencoder : Bool := false
  no_save : Bool := false
  train_classifier : Bool := false
  classifier_data : String := "merged"
deriving DecidableEq

/-- Help string of the `--classifier-model` option in `parse_args`. -/
def classifier_model_help : String := "types of model to use, all, xgb, rforest, logreg"

/-- A CSV file as `pandas.read_csv(path, index_col=0)` sees it: a header row
naming the data columns (after the cell above the index), the index column,
and the numeric body (rows without their index cell). -/
structure Csv where
  header : List String
  index : List String
  data : Table
deriving DecidableEq

/-- Hyperparameters imported from `hyperparameters.py` (file not part of the
sources here; the values are opaque, only their roles matter). -/
structure Hyperparams where
  latent_dim : ℕ
  intermediate_dim : ℕ
  num_epochs : ℕ
  batch_size : ℕ
  learning_rate : ℚ
deriving DecidableEq

/-- The deterministic behaviour of the seeded scikit-learn primitives:
`shuffle seed n` is the permutation of `[0, n)` that `train_test_split`
uses for `random_state = seed`, and `score name seed Xtr ytr Xte yte` is the
accuracy that the classifier `name`, constructed with `random_state = seed`
and fitted on `(Xtr, ytr)`, reports on `(Xte, yte)`. -/
structure SkLib where
  shuffle : ℕ → ℕ → List ℕ
  score : String → ℕ → Table → List ℚ → Table → List ℚ → ℚ

/-- The part of the environment the classifier stage can read: the two CSV
files it loads, the trained encoder, the hyperparameters, and the seeded
scikit-learn primitives.  By construction the classifier stage receives
nothing else — no clock, no filesystem state. -/
structure ClfEnv where
  biomedCsv : Csv
  mergedCsv : Csv
  encode : String → List ℚ → List ℚ
  hp : Hyperparams
  sk : SkLib

/-- The full environment of one invocation of the script. `timestamp` is
`datetime.now().strftime(...)`; `pathExists`/`abspath` model `os.path`;
`omicsCsv` is the omics file; `encode` is the (trained or loaded)
encoder of the autoencoder applied to one feature row (for the variational model,
its last output component, as `main` selects); `epochLoss` is the value
of the `train_loss` mean metric after epoch `e` of autoencoder training. -/
structure Env where
  timestamp : String
  pathExists : String → Bool
  abspath : String → String
  omicsCsv : Csv
  biomedCsv : Csv
  mergedCsv : Csv
  encode : String → List ℚ → List ℚ
  epochLoss : ℕ → ℚ
  hp : Hyperparams
  sk : SkLib

/-- Projection of the full environment onto what the classifier stage reads. -/
def Env.clf (E : Env) : ClfEnv :=
  { biomedCsv := E.biomedCsv, mergedCsv := E.mergedCsv, encode := E.encode,
    hp := E.hp, sk := E.sk }

/-- Observable effects of the script, in program order. -/
inductive Event where
  | banner (s : String)
  | printPaths (checkpoint logs : String)
  | makedirs (path : String)
  | printShape (file : String) (rows cols : ℕ)
  | buildAutoencoder (model : String)
  | loadWeights (path : String)
  | buildOptimizer (name schedule : String) (learning_rate : ℚ)
  | summaryScalar (epoch : ℕ) (loss : ℚ)
  | saveWeights (path : String)
  | logLine (file : String) (epoch : ℕ) (loss : ℚ)
  | printEpoch (epoch : ℕ) (loss : ℚ)
  | splitCall (test_size : ℚ) (random_state : ℕ)
  | printSplitShapes (xtr xte ytr yte : ℕ)
  | fitClf (name : String) (random_state : ℕ) (X : Table) (y : List ℚ)
  | plotRoc (name : String) (axisOf : Option String) (X : Table) (y : List ℚ)
  | accScore (name : String) (value : ℚ)
  | savefig (path : String)
deriving DecidableEq

/-- Recognizer for `printShape` events. -/
def Event.isShapeLine : Event → Bool
  | .printShape .. => true
  | _ => false

/-- Recognizer for `buildAutoencoder` events. -/
def Event.isBuild : Event → Bool
  | .buildAutoencoder .. => true
  | _ => false

/-- Recognizer for `makedirs` events. -/
def Event.isMkdir : Event → Bool
  | .makedirs .. => true
  | _ => false

/-- Recognizer for `saveWeights` events. -/
def Event.isSave : Event → Bool
  | .saveWeights .. => true
  | _ => false

/-- Recognizer for `logLine` events. -/
def Event.isLogLine : Event → Bool
  | .logLine .. => true
  | _ => false

/-- Recognizer for classifier `fit` events. -/
def Event.isFit : Event → Bool
  | .fitClf .. => true
  | _ => false

/-- Recognizer for `plot_roc_curve` events. -/
def Event.isPlot : Event → Bool
  | .plotRoc .. => true
  | _ => false

/-- Recognizer for accuracy-printing events. -/
def Event.isAcc : Event → Bool
  | .accScore .. => true
  | _ => false

/-- Recognizer for the events that only the classifier stage emits. -/
def Event.isClfEvent : Event → Bool
  | .splitCall .. => true
  | .printSplitShapes .. => true
  | .fitClf .. => true
  | .plotRoc .. => true
  | .accScore .. => true
  | .savefig .. => true
  | _ => false

/-- Path separator (`os.sep` on the platform the script targets). -/
def osSep : String := "/"

/-- Line 146: checkpoint directory for one run,
the checkpoints directory, the separator, timestamp underscore model, and a trailing separator. -/
def checkpoint_path (timestamp model : String) : String :=
  "./output/checkpoints" ++ osSep ++ timestamp ++ "_" ++ model ++ osSep

/-- Line 152: log directory for one run. -/
def logs_path (timestamp model : String) : String :=
  "./output/logs" ++ osSep ++ timestamp ++ "_" ++ model ++ osSep

/-- Python `path.split("/")[-1]`. -/
def lastComponent (path : String) : String :=
  (path.splitOn "/").getLastD path

/-- Lines 134-171: events before the omics CSV is loaded — the starting
banner, the path announcements (suppressed by `--no-save`), and the
conditional `os.makedirs` calls. -/
def preludeEvents (A : Args) (E : Env) : List Event :=
  let cp := checkpoint_path E.timestamp A.autoencoder_model
  let lpAbs := E.abspath (logs_path E.timestamp A.autoencoder_model)
  Event.banner "===== starting =====" ::
    ((if !A.no_save then
        [Event.printPaths cp (logs_path E.timestamp A.autoencoder_model)]
      else []) ++
     (if !E.pathExists cp && !E.pathExists lpAbs && A.train_autoencoder then
        [Event.makedirs cp, Event.makedirs lpAbs]
      else []))

/-- Line 173: `pd.read_csv(ARGS.omics_data, index_col=0).T` — the numeric
body of the omics file, transposed, so rows are patients and columns are
features. -/
def omicsTable (E : Env) : Table :=
  List.transpose E.omicsCsv.data

/-- Lines 173-179 followed by the `if/elif` chain at 181-198: the CSV-shape
print and, for a recognized `--autoencoder-model`, the build event. -/
def buildEvent (A : Args) : Option Event :=
  if A.autoencoder_model = "vanilla" then some (Event.buildAutoencoder "vanilla")
  else if A.autoencoder_model = "convolutional" then
    some (Event.buildAutoencoder "convolutional")
  else if A.autoencoder_model = "variational" then
    some (Event.buildAutoencoder "variational")
  else none

/-- Lines 98-100: `tf.losses.mean_squared_error` over one feature row —
the mean over the last axis of the squared differences. -/
def mean_squared_error (pred target : List ℚ) : ℚ :=
  (List.zipWith (fun a b => (a - b) ^ 2) pred target).sum / (pred.length : ℚ)

/-- Lines 98-100: `autoencoder_loss_fn(model, input_features)` —
`tf.losses.mean_squared_error(model(input_features), input_features)`,
per row of the batch. -/
def autoencoder_loss_fn (model : List ℚ → List ℚ) (input_features : Table) : List ℚ :=
  input_features.map (fun row => mean_squared_error (model row) row)

/-- A Keras model as the training step sees it: trainable variables and the
forward pass as a function of them. -/
structure TFModel where
  params : List ℚ
  forward : List ℚ → List ℚ → List ℚ

/-- `tf.GradientTape`: an oracle producing the gradient of a scalar function
of the trainable variables at a point. -/
structure GradientTape where
  gradient : (List ℚ → ℚ) → List ℚ → List ℚ

/-- A Keras optimizer: its identity, its learning-rate schedule, and its
`apply_gradients` update (gradients and current variables to new variables). -/
structure Optimizer where
  name : String
  schedule : String
  learning_rate : ℚ
  apply_gradients : List ℚ → List ℚ → List ℚ

/-- `tf.keras.metrics.Mean`: running total and count. -/
structure MeanMetric where
  total : ℚ
  count : ℕ
deriving DecidableEq

/-- Calling the mean metric on a batch of per-row losses. -/
def MeanMetric.update (m : MeanMetric) (losses : List ℚ) : MeanMetric :=
  { total := m.total + losses.sum, count := m.count + losses.length }

/-- `Mean.result()`. -/
def MeanMetric.result (m : MeanMetric) : ℚ := m.total / (m.count : ℚ)

/-- Lines 103-109: one training step.  Inside a gradient tape, evaluate the
loss, take its gradient with respect to the trainable variables (the tape
sums a non-scalar loss), apply the optimizer update, record the loss in the
mean metric. -/
def autoencoder_train (loss_fn : (List ℚ → List ℚ) → Table → List ℚ)
    (model : TFModel) (optimizer : Optimizer) (tape : GradientTape)
    (input_features : Table) (train_loss : MeanMetric) : TFModel × MeanMetric :=
  let loss := loss_fn (model.forward model.params) input_features
  let gradients :=
    tape.gradient (fun p => (loss_fn (model.forward p) input_features).sum) model.params
  let params := optimizer.apply_gradients gradients model.params
  ({ model with params := params }, train_loss.update loss)

/-- Lines 232-243: events of one epoch of the autoencoder training loop —
the summary scalar, the conditional weight save, the line appended to
`loss.log`, and the console print. -/
def epochEvents (A : Args) (E : Env) (epoch : ℕ) : List Event :=
  let cp := checkpoint_path E.timestamp A.autoencoder_model
  let lpAbs := E.abspath (logs_path E.timestamp A.autoencoder_model)
  Event.summaryScalar epoch (E.epochLoss epoch) ::
    ((if !A.no_save then
        [Event.saveWeights (cp ++ osSep ++ "epoch_" ++ toString epoch)]
      else []) ++
     [Event.logLine (lpAbs ++ "/loss.log") (epoch + 1) (E.epochLoss epoch),
      Event.printEpoch (epoch + 1) (E.epochLoss epoch)])

/-- Lines 203-243: the autoencoder training stage.  When
`--train-autoencoder` is given it announces itself, builds the Adam
optimizer with an inverse-time-decay schedule, and runs `hp.num_epochs`
epochs. -/
def trainingEvents (A : Args) (E : Env) : List Event :=
  if A.train_autoencoder then
    Event.banner "===== Train autoencoder =====" ::
      Event.buildOptimizer "Adam" "InverseTimeDecay" E.hp.learning_rate ::
      ((List.range E.hp.num_epochs).map (epochEvents A E)).flatten
  else []

/-- Line 256 (and 305, 332): `num_biomed_features = biomed_df.shape[1] - 1`,
the column count of the loaded biomed table minus one. -/
def num_biomed_features (C : ClfEnv) : ℕ :=
  C.biomedCsv.header.length - 1

/-- Lines 267 (and 317, 343): `X, Y = merged_df.iloc[:, :-1], merged_df.iloc[:, -1]`. -/
def mergedXY (C : ClfEnv) : Table × List ℚ :=
  (C.mergedCsv.data.map (fun r => r.dropLast),
   C.mergedCsv.data.map (fun r => r.getLastD 0))

/-- Fuelled worker for `reshapeRows`; the fuel only forces structural
termination and is always supplied as the length of the list. -/
def reshapeRowsAux (fuel k : ℕ) (xs : List ℚ) : List (List ℚ) :=
  match fuel with
  | 0 => []
  | fuel + 1 =>
    if k = 0 ∨ xs = [] then []
    else (xs.take k) :: reshapeRowsAux fuel k (xs.drop k)

/-- `numpy.reshape(-1, k)`: regroup a flat list into rows of length `k`. -/
def reshapeRows (k : ℕ) (xs : List ℚ) : List (List ℚ) :=
  reshapeRowsAux xs.length k xs

/-- Lines 273-284 ("merged" path): slice off the last `num_biomed_features`
columns as biomed features, encode the leading omics columns with the
encoder of the autoencoder, concatenate, and reshape to rows of
`hp.latent_dim + num_biomed_features`. -/
def mergedFeatures (A : Args) (C : ClfEnv) : Table :=
  let nb := num_biomed_features C
  let Xr := (mergedXY C).1
  let X_omics := Xr.map (fun r => C.encode A.autoencoder_model (r.take (r.length - nb)))
  let X_biomed := Xr.map (fun r => r.drop (r.length - nb))
  reshapeRows (C.hp.latent_dim + nb) (List.zipWith (· ++ ·) X_omics X_biomed).flatten

/-- Lines 304-328 ("biomed" path): keep only the trailing biomed columns. -/
def biomedFeatures (C : ClfEnv) : Table :=
  let nb := num_biomed_features C
  let Xr := (mergedXY C).1
  reshapeRows nb (Xr.map (fun r => r.drop (r.length - nb))).flatten

/-- Lines 330-358 ("omics" path): encode the leading omics columns only. -/
def omicsFeatures (A : Args) (C : ClfEnv) : Table :=
  let nb := num_biomed_features C
  let Xr := (mergedXY C).1
  reshapeRows C.hp.latent_dim
    (Xr.map (fun r => C.encode A.autoencoder_model (r.take (r.length - nb)))).flatten

/-- The four train/test pieces returned by `train_test_split`. -/
structure Split where
  X_train : Table
  X_test : Table
  y_train : List ℚ
  y_test : List ℚ
deriving DecidableEq

/-- Model of `sklearn.model_selection.train_test_split(X, Y, test_size,
random_state)` (external library): shuffle the row indices with the seeded
permutation, reserve the first `ceil(test_size * n)` of them as the test
set, and keep the rest for training. -/
def train_test_split (shuffle : ℕ → ℕ → List ℕ) (X : Table) (Y : List ℚ)
    (test_size : ℚ) (random_state : ℕ) : Split :=
  let n := X.length
  let n_test := (⌈test_size * (n : ℚ)⌉).toNat
  let perm := shuffle random_state n
  { X_train := (perm.drop n_test).filterMap (fun i => X[i]?)
    X_test := (perm.take n_test).filterMap (fun i => X[i]?)
    y_train := (perm.drop n_test).filterMap (fun i => Y[i]?)
    y_test := (perm.take n_test).filterMap (fun i => Y[i]?) }

/-- Lines 370-522: everything after the train/test split — the dispatch on
`--classifier-model`.  `"vanilla_nn"` and `"all_optimization"` exit with
"Not finished!" before touching any model; `"all"` fits the four
classifiers (each constructed with `random_state=42`) on the training
split, draws the four ROC curves (the XGBoost call creates the axis, the
other three draw on it), prints the four accuracies, and saves the figure;
anything else exits with "Wrong model for classifier!". -/
def afterSplit (A : Args) (C : ClfEnv) (X : Table) (Y : List ℚ)
    (ev : List Event) : List Event × Option String :=
  let s := train_test_split C.sk.shuffle X Y (1/5) 42
  let ev := ev ++
    [Event.splitCall (1/5) 42,
     Event.printSplitShapes s.X_train.length s.X_test.length
       s.y_train.length s.y_test.length]
  if A.classifier_model = "vanilla_nn" then (ev, some "Not finished!")
  else if A.classifier_model = "all" then
    let ev := ev ++
      [Event.banner "===== start XGB =====",
       Event.fitClf "XGBClassifier" 42 s.X_train s.y_train,
       Event.banner "===== start RandomForest =====",
       Event.fitClf "RandomForestClassifier" 42 s.X_train s.y_train,
       Event.banner "===== start LogisticRegression =====",
       Event.fitClf "LogisticRegression" 42 s.X_train s.y_train,
       Event.banner "===== start SVC =====",
       Event.fitClf "SVC" 42 s.X_train s.y_train,
       Event.banner "===== start plotting results =====",
       Event.plotRoc "xgb" none s.X_test s.y_test,
       Event.plotRoc "forest" (some "xgb") s.X_test s.y_test,
       Event.plotRoc "logreg" (some "xgb") s.X_test s.y_test,
       Event.plotRoc "svc" (some "xgb") s.X_test s.y_test,
       Event.accScore "XGBoost" (C.sk.score "xgb" 42 s.X_train s.y_train s.X_test s.y_test),
       Event.accScore "RandomForest"
         (C.sk.score "rforest" 42 s.X_train s.y_train s.X_test s.y_test),
       Event.accScore "LogisticRegression"
         (C.sk.score "logreg" 42 s.X_train s.y_train s.X_test s.y_test),
       Event.accScore "SVC" (C.sk.score "svc" 42 s.X_train s.y_train s.X_test s.y_test)]
    let ev := ev ++
      (if A.classifier_data = "biomed" || A.classifier_data = "omics" then
        [Event.savefig ("./" ++ A.autoencoder_model ++ "_" ++ A.classifier_data ++ ".png")]
      else if A.classifier_data = "merged" then
        [Event.savefig ("./" ++ A.autoencoder_model ++ "_" ++
          ((lastComponent (A.merged_data.getD "")).dropRight 4) ++ ".png")]
      else [])
    (ev, none)
  else if A.classifier_model = "all_optimization" then (ev, some "Not finished!")
  else (ev, some "Wrong model for classifier!")

/-- Lines 245-360: the classifier stage — preprocessing dispatch on
`--classifier-data`, then the split and the classifier dispatch.  It reads
only `ClfEnv`. -/
def classifierStage (A : Args) (C : ClfEnv) : List Event × Option String :=
  if !A.train_classifier then ([], none)
  else
    let intro := [Event.banner "===== train classifier =====",
                  Event.banner "===== classifier preprocess ====="]
    if A.classifier_data = "merged" then
      afterSplit A C (mergedFeatures A C) (mergedXY C).2
        (intro ++
         [Event.printShape (lastComponent (A.merged_data.getD ""))
            C.mergedCsv.data.length (C.mergedCsv.header.length - 1),
          Event.banner "===== finish omics encoding ====="])
    else if A.classifier_data = "biomed" then
      afterSplit A C (biomedFeatures C) (mergedXY C).2
        (intro ++
         [Event.printShape (lastComponent (A.merged_data.getD ""))
            C.mergedCsv.data.length (num_biomed_features C)])
    else if A.classifier_data = "omics" then
      afterSplit A C (omicsFeatures A C) (mergedXY C).2
        (intro ++
         [Event.printShape (lastComponent (A.merged_data.getD ""))
            C.mergedCsv.data.length
            (C.mergedCsv.header.length - 1 - num_biomed_features C),
          Event.banner "===== finish omics encoding ====="])
    else (intro, some "wrong classifier data!")

/-- Lines 173-201: prelude, omics CSV load and shape print, and (for a
valid model) the autoencoder build plus optional weight loading. -/
def loadEvents (A : Args) (E : Env) : List Event :=
  preludeEvents A E ++
    [Event.printShape (lastComponent A.omics_data)
      (omicsTable E).length ((omicsTable E).headD []).length]

/-- Lines 200-201: the optional `autoencoder.load_weights` call. -/
def loadWEvents (A : Args) : List Event :=
  match A.load_autoencoder with
  | some p => [Event.loadWeights p]
  | none => []

/-- The whole of `main`: the ordered event trace and, when the script calls
`sys.exit`, the exit message. -/
def run (A : Args) (E : Env) : List Event × Option String :=
  match buildEvent A with
  | none => (loadEvents A E, some "Wrong model for autoencoder!")
  | some be =>
    let ev := loadEvents A E ++ be :: (loadWEvents A ++ trainingEvents A E)
    let c := classifierStage A E.clf
    (ev ++ c.1, c.2)

/-- The split of the "merged" preprocessing path: `train_test_split` on the
encoded-and-concatenated feature matrix with `test_size=0.2` and
`random_state=42`. -/
def mergedSplit (A : Args) (C : ClfEnv) : Split :=
  train_test_split C.sk.shuffle (mergedFeatures A C) (mergedXY C).2 (1/5) 42

/-! ### Concrete sample data used by the witness theorems -/

/-- Sample hyperparameters for witness instantiation. -/
def sampleHp : Hyperparams :=
  { latent_dim := 2, intermediate_dim := 3, num_epochs := 2, batch_size := 2,
    learning_rate := 1 }

/-- Sample deterministic library behaviour for witness instantiation. -/
def sampleSk : SkLib :=
  { shuffle := fun _ n => List.range n,
    score := fun _ _ _ _ _ _ => 1 }

/-- Sample environment: a 2-feature, 2-patient omics file, a biomed file with
one clinical feature plus the label, and a merged file with three omics
columns, one biomed column is folded into the three here, and the label. -/
def sampleEnv : Env :=
  { timestamp := "041721-201121",
    pathExists := fun _ => false,
    abspath := fun s => s,
    omicsCsv := { header := ["p1", "p2"], index := ["f1", "f2"],
                  data := [[1, 2], [3, 4]] },
    biomedCsv := { header := ["age", "label"], index := ["p1"], data := [[30, 0]] },
    mergedCsv := { header := ["g1", "g2", "g3", "label"],
                   index := ["p1", "p2", "p3", "p4"],
                   data := [[1, 2, 3, 0], [4, 5, 6, 1], [7, 8, 9, 0], [10, 11, 12, 1]] },
    encode := fun _ _ => [0, 1],
    epochLoss := fun _ => 0,
    hp := sampleHp,
    sk := sampleSk }

/-- Sample arguments: train both stages on the sample files. -/
def sampleArgs : Args :=
  { train_autoencoder := true, train_classifier := true,
    biomed_data := some "bio.csv", merged_data := some "data/merged_all.csv" }

/-- Arguments asking for the unfinished `vanilla_nn` classifier. -/
def sampleArgsNN : Args := { sampleArgs with classifier_model := "vanilla_nn" }

/-- Arguments asking for the advertised but unhandled `xgb` classifier. -/
def sampleArgsXgb : Args := { sampleArgs with classifier_model := "xgb" }

/-- Arguments training the autoencoder with `--no-save`. -/
def sampleArgsNoSave : Args := { sampleArgs with no_save := true }

/-- Arguments with an unrecognized autoencoder model. -/
def sampleArgsBadAE : Args := { sampleArgs with autoencoder_model := "alexnet" }

/-! ### List-level helper lemmas -/

/-- Flattening a map to singletons is the map itself. -/
theorem flatten_map_singleton {α β : Type} (l : List α) (f : α → β) :
    (l.map (fun x => [f x])).flatten = l.map f := by
  induction l with
  | nil => rfl
  | cons a t ih => simp [ih]

/-- Mapping the same list on both sides of a `zipWith`. -/
theorem zipWith_map_same {α β γ δ : Type} (f : β → γ → δ) (g : α → β) (h : α → γ)
    (l : List α) :
    List.zipWith f (l.map g) (l.map h) = l.map (fun x => f (g x) (h x)) := by
  induction l with
  | nil => rfl
  | cons a t ih => simp [ih]

/-- Looking up a list of in-bounds indices succeeds everywhere. -/
theorem length_filterMap_getElem {α : Type} (l : List ℕ) (X : List α)
    (h : ∀ i ∈ l, i < X.length) :
    (l.filterMap (fun i => X[i]?)).length = l.length := by
  induction l with
  | nil => simp
  | cons a t ih =>
    have ha : a < X.length := h a (List.mem_cons_self a t)
    rw [List.filterMap_cons, List.getElem?_eq_getElem ha]
    rw [List.length_cons, List.length_cons,
      ih (fun i hi => h i (List.mem_cons_of_mem a hi))]

/-- A fifth of `n`, rounded up, is at most `n`. -/
theorem ceil_fifth_le (n : ℕ) : (⌈(1 : ℚ)/5 * (n : ℚ)⌉).toNat ≤ n := by
  have h1 : ((1 : ℚ)/5 * (n : ℚ)) ≤ (n : ℚ) := by
    have hn : (0 : ℚ) ≤ (n : ℚ) := Nat.cast_nonneg n
    nlinarith
  have h2 : (⌈(1 : ℚ)/5 * (n : ℚ)⌉ : ℤ) ≤ ⌈(n : ℚ)⌉ := Int.ceil_le_ceil h1
  have h3 : (⌈(n : ℚ)⌉ : ℤ) = n := Int.ceil_natCast n
  omega

/-- Unflattening with the common row length recovers the rows. -/
theorem reshapeRowsAux_flatten (k : ℕ) (hk : 0 < k) (rows : Table)
    (h : ∀ r ∈ rows, r.length = k) (fuel : ℕ) (hfuel : rows.flatten.length ≤ fuel) :
    reshapeRowsAux fuel k rows.flatten = rows := by
  induction rows generalizing fuel with
  | nil =>
    cases fuel with
    | zero => rfl
    | succ fuel => simp [reshapeRowsAux]
  | cons r rs ih =>
    have hr : r.length = k := h r (List.mem_cons_self r rs)
    have hrpos : r ≠ [] := by
      intro hnil
      rw [hnil] at hr
      simp at hr
      omega
    have hlen : (r :: rs).flatten.length = r.length + rs.flatten.length := by
      simp [List.flatten_cons]
    cases fuel with
    | zero =>
      exfalso
      omega
    | succ fuel =>
      have hne : r ++ rs.flatten ≠ [] := by
        intro hnil
        exact hrpos (List.append_eq_nil.mp hnil).1
      have htake : (r ++ rs.flatten).take k = r := by
        rw [← hr]
        exact List.take_left r _
      have hdrop : (r ++ rs.flatten).drop k = rs.flatten := by
        rw [← hr]
        exact List.drop_left r _
      rw [List.flatten_cons, reshapeRowsAux]
      rw [if_neg (by push_neg; exact ⟨by omega, hne⟩), htake, hdrop]
      congr 1
      apply ih (fun x hx => h x (List.mem_cons_of_mem r hx))
      omega

/-- `reshapeRows` undoes flattening rows of the stated width. -/
theorem reshapeRows_flatten (k : ℕ) (hk : 0 < k) (rows : Table)
    (h : ∀ r ∈ rows, r.length = k) :
    reshapeRows k rows.flatten = rows :=
  reshapeRowsAux_flatten k hk rows h rows.flatten.length (le_refl _)

/-! ### Filtering the trace of each stage -/

/-- A predicate that ignores the prelude glue filters `preludeEvents` to nothing. -/
theorem filter_preludeEvents (A : Args) (E : Env) (p : Event → Bool)
    (h1 : ∀ s, p (Event.banner s) = false)
    (h2 : ∀ a b, p (Event.printPaths a b) = false)
    (h3 : ∀ x, p (Event.makedirs x) = false) :
    (preludeEvents A E).filter p = [] := by
  simp [preludeEvents, List.filter_append, List.filter_cons, apply_ite (List.filter p),
    h1, h2, h3]

/-- A predicate that also ignores shape prints filters `loadEvents` to nothing. -/
theorem filter_loadEvents (A : Args) (E : Env) (p : Event → Bool)
    (h1 : ∀ s, p (Event.banner s) = false)
    (h2 : ∀ a b, p (Event.printPaths a b) = false)
    (h3 : ∀ x, p (Event.makedirs x) = false)
    (h4 : ∀ f r c, p (Event.printShape f r c) = false) :
    (loadEvents A E).filter p = [] := by
  simp [loadEvents, List.filter_append, filter_preludeEvents A E p h1 h2 h3,
    List.filter_cons, h4]

/-- A predicate that ignores loading events filters `loadWEvents` to nothing. -/
theorem filter_loadWEvents (A : Args) (p : Event → Bool)
    (h : ∀ x, p (Event.loadWeights x) = false) :
    (loadWEvents A).filter p = [] := by
  cases hl : A.load_autoencoder <;> simp [loadWEvents, hl, List.filter_cons, h]

/-- Filtering one epoch of training events. -/
theorem filter_epochEvents (A : Args) (E : Env) (n : ℕ) (p : Event → Bool)
    (h1 : ∀ a b, p (Event.summaryScalar a b) = false)
    (h2 : ∀ a b c, p (Event.logLine a b c) = false)
    (h3 : ∀ a b, p (Event.printEpoch a b) = false) :
    (epochEvents A E n).filter p =
      if !A.no_save then
        List.filter p
          [Event.saveWeights (checkpoint_path E.timestamp A.autoencoder_model ++
            osSep ++ "epoch_" ++ toString n)]
      else [] := by
  simp [epochEvents, List.filter_append, List.filter_cons, apply_ite (List.filter p),
    h1, h2, h3]

/-- A predicate that ignores every training-loop event filters
`trainingEvents` to nothing. -/
theorem filter_trainingEvents (A : Args) (E : Env) (p : Event → Bool)
    (h1 : ∀ s, p (Event.banner s) = false)
    (h2 : ∀ a b c, p (Event.buildOptimizer a b c) = false)
    (h3 : ∀ a b, p (Event.summaryScalar a b) = false)
    (h4 : ∀ x, p (Event.saveWeights x) = false)
    (h5 : ∀ a b c, p (Event.logLine a b c) = false)
    (h6 : ∀ a b, p (Event.printEpoch a b) = false) :
    (trainingEvents A E).filter p = [] := by
  by_cases hta : A.train_autoencoder
  · simp only [trainingEvents, hta, if_true, List.filter_cons, h1, h2]
    rw [List.filter_flatten, List.map_map]
    apply List.flatten_eq_nil_iff.mpr
    intro l hl
    rw [List.mem_map] at hl
    obtain ⟨n, hn, rfl⟩ := hl
    show (epochEvents A E n).filter p = []
    rw [filter_epochEvents A E n p h3 h5 h6]
    split
    · simp [List.filter_cons, h4]
    · rfl
  · simp [trainingEvents, hta]

/-- Structure of the full trace for a recognized autoencoder model. -/
theorem run_eq_of_buildEvent (A : Args) (E : Env) (be : Event)
    (h : buildEvent A = some be) :
    run A E =
      (loadEvents A E ++ be :: (loadWEvents A ++ trainingEvents A E) ++
        (classifierStage A E.clf).1,
       (classifierStage A E.clf).2) := by
  simp [run, h]

/-- For a predicate that ignores all glue outside the classifier stage,
filtering the whole trace is filtering the classifier stage (the stage is
never reached when the autoencoder model is rejected). -/
theorem filter_run (A : Args) (E : Env) (p : Event → Bool)
    (h1 : ∀ s, p (Event.banner s) = false)
    (h2 : ∀ a b, p (Event.printPaths a b) = false)
    (h3 : ∀ x, p (Event.makedirs x) = false)
    (h4 : ∀ f r c, p (Event.printShape f r c) = false)
    (h5 : ∀ m, p (Event.buildAutoencoder m) = false)
    (h6 : ∀ x, p (Event.loadWeights x) = false)
    (h7 : ∀ a b c, p (Event.buildOptimizer a b c) = false)
    (h8 : ∀ a b, p (Event.summaryScalar a b) = false)
    (h9 : ∀ x, p (Event.saveWeights x) = false)
    (h10 : ∀ a b c, p (Event.logLine a b c) = false)
    (h11 : ∀ a b, p (Event.printEpoch a b) = false) :
    (run A E).1.filter p =
      match buildEvent A with
      | none => []
      | some _ => ((classifierStage A E.clf).1.filter p) := by
  cases hb : buildEvent A with
  | none =>
    simp only [run, hb]
    exact filter_loadEvents A E p h1 h2 h3 h4
  | some be =>
    have hbe : p be = false := by
      simp only [buildEvent] at hb
      split at hb
      · rw [← Option.some.inj hb]; exact h5 _
      · split at hb
        · rw [← Option.some.inj hb]; exact h5 _
        · split at hb
          · rw [← Option.some.inj hb]; exact h5 _
          · simp at hb
    rw [run_eq_of_buildEvent A E be hb]
    simp only [List.filter_append, List.filter_cons, hbe,
      filter_loadEvents A E p h1 h2 h3 h4,
      filter_loadWEvents A p h6,
      filter_trainingEvents A E p h1 h7 h8 h9 h10 h11]
    simp

/-- The weight checkpoints that one epoch contributes. -/
theorem save_filter_epochEvents (A : Args) (E : Env) (n : ℕ) (hns : A.no_save = false) :
    (epochEvents A E n).filter Event.isSave =
      [Event.saveWeights (checkpoint_path E.timestamp A.autoencoder_model ++
        osSep ++ "epoch_" ++ toString n)] := by
  simp [epochEvents, hns, List.filter_cons, List.filter_append, Event.isSave]

/-- With `--train-autoencoder` and saving enabled, the training loop writes
one weight file per epoch, named `epoch_<n>` with `n` counting from `0`. -/
theorem save_filter_trainingEvents (A : Args) (E : Env)
    (hta : A.train_autoencoder = true) (hns : A.no_save = false) :
    (trainingEvents A E).filter Event.isSave =
      (List.range E.hp.num_epochs).map (fun n =>
        Event.saveWeights (checkpoint_path E.timestamp A.autoencoder_model ++
          osSep ++ "epoch_" ++ toString n)) := by
  simp only [trainingEvents, hta, if_true, List.filter_cons]
  rw [show Event.isSave (Event.banner "===== Train autoencoder =====") = false from rfl,
    show Event.isSave (Event.buildOptimizer "Adam" "InverseTimeDecay" E.hp.learning_rate)
      = false from rfl]
  simp only [Bool.false_eq_true, if_false]
  rw [List.filter_flatten, List.map_map]
  have hmap : List.map (List.filter Event.isSave ∘ epochEvents A E)
      (List.range E.hp.num_epochs) =
      List.map (fun n => [Event.saveWeights
        (checkpoint_path E.timestamp A.autoencoder_model ++ osSep ++ "epoch_" ++ toString n)])
      (List.range E.hp.num_epochs) := by
    apply List.map_congr_left
    intro n _
    exact save_filter_epochEvents A E n hns
  rw [hmap, flatten_map_singleton]

/-- The `loss.log` line that one epoch contributes (written whether or not
`--no-save` is given). -/
theorem log_filter_epochEvents (A : Args) (E : Env) (n : ℕ) :
    (epochEvents A E n).filter Event.isLogLine =
      [Event.logLine (E.abspath (logs_path E.timestamp A.autoencoder_model) ++ "/loss.log")
        (n + 1) (E.epochLoss n)] := by
  simp [epochEvents, List.filter_cons, List.filter_append, apply_ite (List.filter _),
    Event.isLogLine]

/-- With `--train-autoencoder`, the training loop appends one line to
`loss.log` per epoch. -/
theorem log_filter_trainingEvents (A : Args) (E : Env)
    (hta : A.train_autoencoder = true) :
    (trainingEvents A E).filter Event.isLogLine =
      (List.range E.hp.num_epochs).map (fun n =>
        Event.logLine (E.abspath (logs_path E.timestamp A.autoencoder_model) ++ "/loss.log")
          (n + 1) (E.epochLoss n)) := by
  simp only [trainingEvents, hta, if_true, List.filter_cons]
  rw [show Event.isLogLine (Event.banner "===== Train autoencoder =====") = false from rfl,
    show Event.isLogLine (Event.buildOptimizer "Adam" "InverseTimeDecay" E.hp.learning_rate)
      = false from rfl]
  simp only [Bool.false_eq_true, if_false]
  rw [List.filter_flatten, List.map_map]
  have hmap : List.map (List.filter Event.isLogLine ∘ epochEvents A E)
      (List.range E.hp.num_epochs) =
      List.map (fun n => [Event.logLine
        (E.abspath (logs_path E.timestamp A.autoencoder_model) ++ "/loss.log")
        (n + 1) (E.epochLoss n)])
      (List.range E.hp.num_epochs) := by
    apply List.map_congr_left
    intro n _
    exact log_filter_epochEvents A E n
  rw [hmap, flatten_map_singleton]

/-- A recognized `--autoencoder-model` produces its build event. -/
theorem buildEvent_of_valid (A : Args)
    (h : A.autoencoder_model = "vanilla" ∨ A.autoencoder_model = "convolutional" ∨
         A.autoencoder_model = "variational") :
    buildEvent A = some (Event.buildAutoencoder A.autoencoder_model) := by
  rcases h with h | h | h <;> simp [buildEvent, h]

/-- An unrecognized `--autoencoder-model` produces no build event. -/
theorem buildEvent_of_invalid (A : Args)
    (h : ¬(A.autoencoder_model = "vanilla" ∨ A.autoencoder_model = "convolutional" ∨
           A.autoencoder_model = "variational")) :
    buildEvent A = none := by
  push_neg at h
  simp [buildEvent, h.1, h.2.1, h.2.2]

/-- A predicate that ignores everything after the split filters
`afterSplit` down to its input events. -/
theorem filter_afterSplit (A : Args) (C : ClfEnv) (X : Table) (Y : List ℚ)
    (ev : List Event) (p : Event → Bool)
    (h1 : ∀ s, p (Event.banner s) = false)
    (h2 : ∀ a b, p (Event.splitCall a b) = false)
    (h3 : ∀ a b c d, p (Event.printSplitShapes a b c d) = false)
    (h4 : ∀ n r x y, p (Event.fitClf n r x y) = false)
    (h5 : ∀ n a x y, p (Event.plotRoc n a x y) = false)
    (h6 : ∀ n v, p (Event.accScore n v) = false)
    (h7 : ∀ x, p (Event.savefig x) = false) :
    (afterSplit A C X Y ev).1.filter p = ev.filter p := by
  simp only [afterSplit]
  split
  · simp [List.filter_append, List.filter_cons, h2, h3]
  · split
    · simp [List.filter_append, List.filter_cons, apply_ite (List.filter p),
        h1, h2, h3, h4, h5, h6, h7]
    · split <;>
        simp [List.filter_append, List.filter_cons, h2, h3]

/-- A predicate that ignores every classifier-stage event filters the whole
classifier stage to nothing. -/
theorem filter_classifierStage (A : Args) (C : ClfEnv) (p : Event → Bool)
    (h0 : ∀ f r c, p (Event.printShape f r c) = false)
    (h1 : ∀ s, p (Event.banner s) = false)
    (h2 : ∀ a b, p (Event.splitCall a b) = false)
    (h3 : ∀ a b c d, p (Event.printSplitShapes a b c d) = false)
    (h4 : ∀ n r x y, p (Event.fitClf n r x y) = false)
    (h5 : ∀ n a x y, p (Event.plotRoc n a x y) = false)
    (h6 : ∀ n v, p (Event.accScore n v) = false)
    (h7 : ∀ x, p (Event.savefig x) = false) :
    (classifierStage A C).1.filter p = [] := by
  simp only [classifierStage]
  split
  · rfl
  · split
    · rw [filter_afterSplit A C _ _ _ p h1 h2 h3 h4 h5 h6 h7]
      simp [List.filter_append, List.filter_cons, h0, h1]
    · split
      · rw [filter_afterSplit A C _ _ _ p h1 h2 h3 h4 h5 h6 h7]
        simp [List.filter_append, List.filter_cons, h0, h1]
      · split
        · rw [filter_afterSplit A C _ _ _ p h1 h2 h3 h4 h5 h6 h7]
          simp [List.filter_append, List.filter_cons, h0, h1]
        · simp [List.filter_cons, h1]

/-- In the merged/"all" configuration the classifier stage fits exactly the
four classifiers, in order, on the training part of the split. -/
theorem fit_filter_merged_all (A : Args) (C : ClfEnv)
    (htc : A.train_classifier = true) (hcd : A.classifier_data = "merged")
    (hm : A.classifier_model = "all") :
    (classifierStage A C).1.filter Event.isFit =
      [Event.fitClf "XGBClassifier" 42 (mergedSplit A C).X_train (mergedSplit A C).y_train,
       Event.fitClf "RandomForestClassifier" 42 (mergedSplit A C).X_train (mergedSplit A C).y_train,
       Event.fitClf "LogisticRegression" 42 (mergedSplit A C).X_train (mergedSplit A C).y_train,
       Event.fitClf "SVC" 42 (mergedSplit A C).X_train (mergedSplit A C).y_train] := by
  simp [classifierStage, afterSplit, htc, hcd, hm, mergedSplit,
    List.filter_append, List.filter_cons, Event.isFit]

/-- In the merged/"all" configuration the classifier stage draws exactly
four ROC curves, all on the test part of the split, the first creating the
axis and the other three drawn onto that same axis. -/
theorem plot_filter_merged_all (A : Args) (C : ClfEnv)
    (htc : A.train_classifier = true) (hcd : A.classifier_data = "merged")
    (hm : A.classifier_model = "all") :
    (classifierStage A C).1.filter Event.isPlot =
      [Event.plotRoc "xgb" none (mergedSplit A C).X_test (mergedSplit A C).y_test,
       Event.plotRoc "forest" (some "xgb") (mergedSplit A C).X_test (mergedSplit A C).y_test,
       Event.plotRoc "logreg" (some "xgb") (mergedSplit A C).X_test (mergedSplit A C).y_test,
       Event.plotRoc "svc" (some "xgb") (mergedSplit A C).X_test (mergedSplit A C).y_test] := by
  simp [classifierStage, afterSplit, htc, hcd, hm, mergedSplit,
    List.filter_append, List.filter_cons, Event.isPlot]

/-- In the merged/"all" configuration the classifier stage prints exactly
four accuracy scores, one per classifier. -/
theorem acc_filter_merged_all (A : Args) (C : ClfEnv)
    (htc : A.train_classifier = true) (hcd : A.classifier_data = "merged")
    (hm : A.classifier_model = "all") :
    (classifierStage A C).1.filter Event.isAcc =
      [Event.accScore "XGBoost" (C.sk.score "xgb" 42 (mergedSplit A C).X_train
         (mergedSplit A C).y_train (mergedSplit A C).X_test (mergedSplit A C).y_test),
       Event.accScore "RandomForest" (C.sk.score "rforest" 42 (mergedSplit A C).X_train
         (mergedSplit A C).y_train (mergedSplit A C).X_test (mergedSplit A C).y_test),
       Event.accScore "LogisticRegression" (C.sk.score "logreg" 42 (mergedSplit A C).X_train
         (mergedSplit A C).y_train (mergedSplit A C).X_test (mergedSplit A C).y_test),
       Event.accScore "SVC" (C.sk.score "svc" 42 (mergedSplit A C).X_train
         (mergedSplit A C).y_train (mergedSplit A C).X_test (mergedSplit A C).y_test)] := by
  simp [classifierStage, afterSplit, htc, hcd, hm, mergedSplit,
    List.filter_append, List.filter_cons, Event.isAcc]

/-- In the merged/"all" configuration the classifier stage does not exit. -/
theorem exit_merged_all (A : Args) (C : ClfEnv)
    (htc : A.train_classifier = true) (hcd : A.classifier_data = "merged")
    (hm : A.classifier_model = "all") :
    (classifierStage A C).2 = none := by
  simp [classifierStage, afterSplit, htc, hcd, hm]

/-- Every prelude event is glue: no CSV-shape print, no model build, no
training or classifier event. -/
theorem mem_preludeEvents (A : Args) (E : Env) (e : Event)
    (he : e ∈ preludeEvents A E) :
    e.isShapeLine = false ∧ e.isBuild = false ∧ e.isFit = false ∧
    e.isSave = false ∧ e.isLogLine = false ∧ e.isClfEvent = false := by
  simp only [preludeEvents, List.mem_cons, List.mem_append] at he
  rcases he with rfl | he | he
  · exact ⟨rfl, rfl, rfl, rfl, rfl, rfl⟩
  · split at he
    · simp only [List.mem_singleton] at he
      subst he
      exact ⟨rfl, rfl, rfl, rfl, rfl, rfl⟩
    · simp at he
  · split at he
    · simp only [List.mem_cons, List.not_mem_nil, or_false] at he
      rcases he with rfl | rfl <;> exact ⟨rfl, rfl, rfl, rfl, rfl, rfl⟩
    · simp at he

/-- The build event of a recognized model is always a `buildAutoencoder`. -/
theorem buildEvent_some (A : Args) (be : Event) (h : buildEvent A = some be) :
    ∃ m, be = Event.buildAutoencoder m := by
  simp only [buildEvent] at h
  split at h
  · exact ⟨_, (Option.some.inj h).symm⟩
  · split at h
    · exact ⟨_, (Option.some.inj h).symm⟩
    · split at h
      · exact ⟨_, (Option.some.inj h).symm⟩
      · simp at h

/-- For a recognized model, filtering the whole trace with a predicate that
ignores the pre-training glue splits into the training part and the
classifier part. -/
theorem filter_run_decomp (A : Args) (E : Env) (be : Event) (p : Event → Bool)
    (h : buildEvent A = some be)
    (h1 : ∀ s, p (Event.banner s) = false)
    (h2 : ∀ a b, p (Event.printPaths a b) = false)
    (h3 : ∀ x, p (Event.makedirs x) = false)
    (h4 : ∀ f r c, p (Event.printShape f r c) = false)
    (h5 : ∀ m, p (Event.buildAutoencoder m) = false)
    (h6 : ∀ x, p (Event.loadWeights x) = false) :
    (run A E).1.filter p =
      (trainingEvents A E).filter p ++ (classifierStage A E.clf).1.filter p := by
  obtain ⟨m, rfl⟩ := buildEvent_some A be h
  rw [run_eq_of_buildEvent A E _ h]
  simp only [List.filter_append, List.filter_cons, h5,
    filter_loadEvents A E p h1 h2 h3 h4, filter_loadWEvents A p h6]
  simp

/-- `os.makedirs` happens only in the prelude. -/
theorem mkdir_filter_run (A : Args) (E : Env) :
    (run A E).1.filter Event.isMkdir = (preludeEvents A E).filter Event.isMkdir := by
  cases hb : buildEvent A with
  | none =>
    simp only [run, hb]
    simp [loadEvents, List.filter_append, List.filter_cons, Event.isMkdir]
  | some be =>
    obtain ⟨m, rfl⟩ := buildEvent_some A be hb
    rw [run_eq_of_buildEvent A E _ hb]
    simp only [List.filter_append, List.filter_cons]
    rw [filter_loadWEvents A Event.isMkdir (fun _ => rfl),
      filter_trainingEvents A E Event.isMkdir (fun _ => rfl) (fun _ _ _ => rfl)
        (fun _ _ => rfl) (fun _ => rfl) (fun _ _ _ => rfl) (fun _ _ => rfl),
      filter_classifierStage A E.clf Event.isMkdir (fun _ _ _ => rfl) (fun _ => rfl)
        (fun _ _ => rfl) (fun _ _ _ _ => rfl) (fun _ _ _ _ => rfl) (fun _ _ _ _ => rfl)
        (fun _ _ => rfl) (fun _ => rfl)]
    simp [loadEvents, List.filter_append, List.filter_cons, Event.isMkdir]

/-- The prelude creates the two output directories exactly under the
condition the script tests: training requested and neither path existing. -/
theorem mkdir_filter_prelude (A : Args) (E : Env) :
    (preludeEvents A E).filter Event.isMkdir =
      (if !E.pathExists (checkpoint_path E.timestamp A.autoencoder_model) &&
          !E.pathExists (E.abspath (logs_path E.timestamp A.autoencoder_model)) &&
          A.train_autoencoder then
        [Event.makedirs (checkpoint_path E.timestamp A.autoencoder_model),
         Event.makedirs (E.abspath (logs_path E.timestamp A.autoencoder_model))]
      else []) := by
  simp [preludeEvents, List.filter_append, List.filter_cons,
    apply_ite (List.filter Event.isMkdir), Event.isMkdir]

/-- With `--no-save`, the training loop writes no weight checkpoint. -/
theorem save_filter_trainingEvents_nosave (A : Args) (E : Env)
    (hns : A.no_save = true) :
    (trainingEvents A E).filter Event.isSave = [] := by
  by_cases hta : A.train_autoencoder
  · simp only [trainingEvents, hta, if_true, List.filter_cons]
    rw [show Event.isSave (Event.banner "===== Train autoencoder =====") = false from rfl,
      show Event.isSave (Event.buildOptimizer "Adam" "InverseTimeDecay" E.hp.learning_rate)
        = false from rfl]
    simp only [Bool.false_eq_true, if_false]
    rw [List.filter_flatten, List.map_map]
    apply List.flatten_eq_nil_iff.mpr
    intro l hl
    rw [List.mem_map] at hl
    obtain ⟨n, hn, rfl⟩ := hl
    show (epochEvents A E n).filter Event.isSave = []
    simp [epochEvents, hns, List.filter_cons, List.filter_append, Event.isSave]
  · simp [trainingEvents, hta]

/-- The split call is recorded whatever the classifier model is. -/
theorem splitCall_mem_afterSplit (A : Args) (C : ClfEnv) (X : Table) (Y : List ℚ)
    (ev : List Event) :
    Event.splitCall (1/5) 42 ∈ (afterSplit A C X Y ev).1 := by
  simp only [afterSplit]
  split
  · simp
  · split
    · simp
    · split <;> simp

/-- In the "all" branch, the fits recorded after the split are exactly the
four seeded classifiers on the training part. -/
theorem fit_filter_afterSplit_all (A : Args) (C : ClfEnv) (X : Table) (Y : List ℚ)
    (ev : List Event) (hm : A.classifier_model = "all") :
    (afterSplit A C X Y ev).1.filter Event.isFit =
      ev.filter Event.isFit ++
      [Event.fitClf "XGBClassifier" 42 (train_test_split C.sk.shuffle X Y (1/5) 42).X_train
         (train_test_split C.sk.shuffle X Y (1/5) 42).y_train,
       Event.fitClf "RandomForestClassifier" 42
         (train_test_split C.sk.shuffle X Y (1/5) 42).X_train
         (train_test_split C.sk.shuffle X Y (1/5) 42).y_train,
       Event.fitClf "LogisticRegression" 42
         (train_test_split C.sk.shuffle X Y (1/5) 42).X_train
         (train_test_split C.sk.shuffle X Y (1/5) 42).y_train,
       Event.fitClf "SVC" 42 (train_test_split C.sk.shuffle X Y (1/5) 42).X_train
         (train_test_split C.sk.shuffle X Y (1/5) 42).y_train] := by
  simp [afterSplit, hm, List.filter_append, List.filter_cons,
    apply_ite (List.filter Event.isFit), Event.isFit]

/-- Outside the "all" branch the classifier dispatch records no fit. -/
theorem fit_filter_afterSplit_not_all (A : Args) (C : ClfEnv) (X : Table) (Y : List ℚ)
    (ev : List Event) (hm : A.classifier_model ≠ "all") :
    (afterSplit A C X Y ev).1.filter Event.isFit = ev.filter Event.isFit := by
  by_cases h1 : A.classifier_model = "vanilla_nn"
  · simp [afterSplit, h1, List.filter_append, List.filter_cons, Event.isFit]
  · by_cases h3 : A.classifier_model = "all_optimization"
    · simp [afterSplit, h1, hm, h3, List.filter_append, List.filter_cons, Event.isFit]
    · simp [afterSplit, h1, hm, h3, List.filter_append, List.filter_cons, Event.isFit]

/-- If the incoming events hold no fit, any fit recorded after the split
used `random_state = 42`. -/
theorem fit_seed_afterSplit (A : Args) (C : ClfEnv) (X : Table) (Y : List ℚ)
    (ev : List Event) (n : String) (r : ℕ) (x : Table) (y : List ℚ)
    (hev : ev.filter Event.isFit = [])
    (h : Event.fitClf n r x y ∈ (afterSplit A C X Y ev).1) : r = 42 := by
  have hf : Event.fitClf n r x y ∈ (afterSplit A C X Y ev).1.filter Event.isFit :=
    List.mem_filter.mpr ⟨h, rfl⟩
  by_cases hm : A.classifier_model = "all"
  · rw [fit_filter_afterSplit_all A C X Y ev hm, hev] at hf
    simp only [List.nil_append, List.mem_cons, List.not_mem_nil, or_false] at hf
    rcases hf with hf | hf | hf | hf <;> exact (Event.fitClf.inj hf).2.1
  · rw [fit_filter_afterSplit_not_all A C X Y ev hm, hev] at hf
    simp at hf

/-- Any classifier fit the classifier stage performs used `random_state = 42`. -/
theorem fit_seed_classifierStage (A : Args) (C : ClfEnv) (n : String) (r : ℕ)
    (x : Table) (y : List ℚ)
    (h : Event.fitClf n r x y ∈ (classifierStage A C).1) : r = 42 := by
  by_cases htc : A.train_classifier
  · simp only [classifierStage, htc, Bool.not_true, Bool.false_eq_true, if_false] at h
    by_cases hd1 : A.classifier_data = "merged"
    · rw [if_pos hd1] at h
      exact fit_seed_afterSplit A C _ _ _ n r x y
        (by simp [List.filter_cons, List.filter_append, Event.isFit]) h
    · rw [if_neg hd1] at h
      by_cases hd2 : A.classifier_data = "biomed"
      · rw [if_pos hd2] at h
        exact fit_seed_afterSplit A C _ _ _ n r x y
          (by simp [List.filter_cons, List.filter_append, Event.isFit]) h
      · rw [if_neg hd2] at h
        by_cases hd3 : A.classifier_data = "omics"
        · rw [if_pos hd3] at h
          exact fit_seed_afterSplit A C _ _ _ n r x y
            (by simp [List.filter_cons, List.filter_append, Event.isFit]) h
        · rw [if_neg hd3] at h
          simp at h
  · simp [classifierStage, htc] at h

/-- Size of the held-out test set: with a permutation of the row indices,
`train_test_split` reserves exactly `ceil(n/5)` rows for testing. -/
theorem length_X_test_split (shuffle : ℕ → ℕ → List ℕ) (X : Table) (Y : List ℚ)
    (hlen : (shuffle 42 X.length).length = X.length)
    (hmem : ∀ i ∈ shuffle 42 X.length, i < X.length) :
    (train_test_split shuffle X Y (1/5) 42).X_test.length =
      (⌈(1 : ℚ)/5 * (X.length : ℚ)⌉).toNat := by
  simp only [train_test_split]
  rw [length_filterMap_getElem _ X
    (fun i hi => hmem i (List.mem_of_mem_take hi))]
  rw [List.length_take, hlen]
  exact Nat.min_eq_left (ceil_fifth_le X.length)

/-- The two unfinished classifier models exit with "Not finished!". -/
theorem classifierStage_exit_notfinished (A : Args) (C : ClfEnv)
    (htc : A.train_classifier = true) (hcd : A.classifier_data = "merged")
    (hm : A.classifier_model = "vanilla_nn" ∨ A.classifier_model = "all_optimization") :
    (classifierStage A C).2 = some "Not finished!" := by
  rcases hm with hm | hm <;>
    simp [classifierStage, afterSplit, htc, hcd, hm]

/-- An unrecognized classifier model exits with "Wrong model for classifier!". -/
theorem classifierStage_exit_wrong (A : Args) (C : ClfEnv)
    (htc : A.train_classifier = true) (hcd : A.classifier_data = "merged")
    (h1 : A.classifier_model ≠ "all") (h2 : A.classifier_model ≠ "vanilla_nn")
    (h3 : A.classifier_model ≠ "all_optimization") :
    (classifierStage A C).2 = some "Wrong model for classifier!" := by
  simp [classifierStage, afterSplit, htc, hcd, h1, h2, h3]

/-- Outside the "all" model the classifier stage fits nothing. -/
theorem fit_filter_classifierStage_not_all (A : Args) (C : ClfEnv)
    (hm : A.classifier_model ≠ "all") :
    (classifierStage A C).1.filter Event.isFit = [] := by
  by_cases htc : A.train_classifier
  · simp only [classifierStage, htc, Bool.not_true, Bool.false_eq_true, if_false]
    by_cases hd1 : A.classifier_data = "merged"
    · rw [if_pos hd1, fit_filter_afterSplit_not_all A C _ _ _ hm]
      simp [List.filter_cons, List.filter_append, Event.isFit]
    · rw [if_neg hd1]
      by_cases hd2 : A.classifier_data = "biomed"
      · rw [if_pos hd2, fit_filter_afterSplit_not_all A C _ _ _ hm]
        simp [List.filter_cons, List.filter_append, Event.isFit]
      · rw [if_neg hd2]
        by_cases hd3 : A.classifier_data = "omics"
        · rw [if_pos hd3, fit_filter_afterSplit_not_all A C _ _ _ hm]
          simp [List.filter_cons, List.filter_append, Event.isFit]
        · rw [if_neg hd3]
          simp [List.filter_cons, Event.isFit]
  · simp [classifierStage, htc]

/-- Core of the "merged" path: when the encoder emits `latent_dim`
components per row, the reshape undoes the flattening and the feature
matrix is, row by row, the encoded omics slice concatenated with the
trailing biomed slice. -/
theorem mergedFeatures_eq (A : Args) (C : ClfEnv)
    (hnb : 0 < num_biomed_features C)
    (henc : ∀ v, (C.encode A.autoencoder_model v).length = C.hp.latent_dim)
    (hrows : ∀ r ∈ (mergedXY C).1, num_biomed_features C ≤ r.length) :
    mergedFeatures A C =
      (mergedXY C).1.map (fun r =>
        C.encode A.autoencoder_model (r.take (r.length - num_biomed_features C)) ++
        r.drop (r.length - num_biomed_features C)) := by
  simp only [mergedFeatures]
  rw [zipWith_map_same]
  apply reshapeRows_flatten
  · omega
  · intro row hrow
    rw [List.mem_map] at hrow
    obtain ⟨r, hr, rfl⟩ := hrow
    rw [List.length_append, henc, List.length_drop]
    have := hrows r hr
    omega

/-- Every feature row of the "merged" path has `latent_dim` plus
`num_biomed_features` entries. -/
theorem mergedFeatures_row_length (A : Args) (C : ClfEnv)
    (hnb : 0 < num_biomed_features C)
    (henc : ∀ v, (C.encode A.autoencoder_model v).length = C.hp.latent_dim)
    (hrows : ∀ r ∈ (mergedXY C).1, num_biomed_features C ≤ r.length) :
    ∀ row ∈ mergedFeatures A C,
      row.length = C.hp.latent_dim + num_biomed_features C := by
  rw [mergedFeatures_eq A C hnb henc hrows]
  intro row hrow
  rw [List.mem_map] at hrow
  obtain ⟨r, hr, rfl⟩ := hrow
  rw [List.length_append, henc, List.length_drop]
  have := hrows r hr
  omega

/-! ### The claims -/

/-- C1: run with `--train-classifier` and `--classifier-model all` (on the
default "merged" data path, with a recognized autoencoder model), the script
fits exactly four classifiers — XGBoost, random forest, logistic regression,
and a support-vector machine — on the training split, plots a ROC curve for
each of the four on the shared test split (XGBoost creating the axis and the
other three drawn onto that same axis), prints an accuracy score for each of
the four, and terminates normally. -/
theorem claim_c1 (A : Args) (E : Env)
    (hae : A.autoencoder_model = "vanilla" ∨ A.autoencoder_model = "convolutional" ∨
           A.autoencoder_model = "variational")
    (htc : A.train_classifier = true) (hm : A.classifier_model = "all")
    (hcd : A.classifier_data = "merged") :
    (run A E).1.filter Event.isFit =
      [Event.fitClf "XGBClassifier" 42 (mergedSplit A E.clf).X_train (mergedSplit A E.clf).y_train,
       Event.fitClf "RandomForestClassifier" 42 (mergedSplit A E.clf).X_train
         (mergedSplit A E.clf).y_train,
       Event.fitClf "LogisticRegression" 42 (mergedSplit A E.clf).X_train
         (mergedSplit A E.clf).y_train,
       Event.fitClf "SVC" 42 (mergedSplit A E.clf).X_train (mergedSplit A E.clf).y_train] ∧
    (run A E).1.filter Event.isPlot =
      [Event.plotRoc "xgb" none (mergedSplit A E.clf).X_test (mergedSplit A E.clf).y_test,
       Event.plotRoc "forest" (some "xgb") (mergedSplit A E.clf).X_test
         (mergedSplit A E.clf).y_test,
       Event.plotRoc "logreg" (some "xgb") (mergedSplit A E.clf).X_test
         (mergedSplit A E.clf).y_test,
       Event.plotRoc "svc" (some "xgb") (mergedSplit A E.clf).X_test
         (mergedSplit A E.clf).y_test] ∧
    (run A E).1.filter Event.isAcc =
      [Event.accScore "XGBoost" (E.sk.score "xgb" 42 (mergedSplit A E.clf).X_train
         (mergedSplit A E.clf).y_train (mergedSplit A E.clf).X_test (mergedSplit A E.clf).y_test),
       Event.accScore "RandomForest" (E.sk.score "rforest" 42 (mergedSplit A E.clf).X_train
         (mergedSplit A E.clf).y_train (mergedSplit A E.clf).X_test (mergedSplit A E.clf).y_test),
       Event.accScore "LogisticRegression" (E.sk.score "logreg" 42 (mergedSplit A E.clf).X_train
         (mergedSplit A E.clf).y_train (mergedSplit A E.clf).X_test (mergedSplit A E.clf).y_test),
       Event.accScore "SVC" (E.sk.score "svc" 42 (mergedSplit A E.clf).X_train
         (mergedSplit A E.clf).y_train (mergedSplit A E.clf).X_test (mergedSplit A E.clf).y_test)] ∧
    (run A E).2 = none := by
  have hb := buildEvent_of_valid A hae
  refine ⟨?_, ?_, ?_, ?_⟩
  · rw [filter_run A E Event.isFit (fun _ => rfl) (fun _ _ => rfl) (fun _ => rfl)
      (fun _ _ _ => rfl) (fun _ => rfl) (fun _ => rfl) (fun _ _ _ => rfl)
      (fun _ _ => rfl) (fun _ => rfl) (fun _ _ _ => rfl) (fun _ _ => rfl), hb]
    exact fit_filter_merged_all A E.clf htc hcd hm
  · rw [filter_run A E Event.isPlot (fun _ => rfl) (fun _ _ => rfl) (fun _ => rfl)
      (fun _ _ _ => rfl) (fun _ => rfl) (fun _ => rfl) (fun _ _ _ => rfl)
      (fun _ _ => rfl) (fun _ => rfl) (fun _ _ _ => rfl) (fun _ _ => rfl), hb]
    exact plot_filter_merged_all A E.clf htc hcd hm
  · rw [filter_run A E Event.isAcc (fun _ => rfl) (fun _ _ => rfl) (fun _ => rfl)
      (fun _ _ _ => rfl) (fun _ => rfl) (fun _ => rfl) (fun _ _ _ => rfl)
      (fun _ _ => rfl) (fun _ => rfl) (fun _ _ _ => rfl) (fun _ _ => rfl), hb]
    exact acc_filter_merged_all A E.clf htc hcd hm
  · rw [run_eq_of_buildEvent A E _ hb]
    exact exit_merged_all A E.clf htc hcd hm

/-- Witness for C1 at the sample arguments and environment. -/
theorem claim_c1_witness :
    ((sampleArgs.autoencoder_model = "vanilla" ∨
      sampleArgs.autoencoder_model = "convolutional" ∨
      sampleArgs.autoencoder_model = "variational") ∧
     sampleArgs.train_classifier = true ∧ sampleArgs.classifier_model = "all" ∧
     sampleArgs.classifier_data = "merged") ∧
    ((run sampleArgs sampleEnv).1.filter Event.isFit =
      [Event.fitClf "XGBClassifier" 42 (mergedSplit sampleArgs sampleEnv.clf).X_train
         (mergedSplit sampleArgs sampleEnv.clf).y_train,
       Event.fitClf "RandomForestClassifier" 42 (mergedSplit sampleArgs sampleEnv.clf).X_train
         (mergedSplit sampleArgs sampleEnv.clf).y_train,
       Event.fitClf "LogisticRegression" 42 (mergedSplit sampleArgs sampleEnv.clf).X_train
         (mergedSplit sampleArgs sampleEnv.clf).y_train,
       Event.fitClf "SVC" 42 (mergedSplit sampleArgs sampleEnv.clf).X_train
         (mergedSplit sampleArgs sampleEnv.clf).y_train] ∧
     (run sampleArgs sampleEnv).1.filter Event.isPlot =
      [Event.plotRoc "xgb" none (mergedSplit sampleArgs sampleEnv.clf).X_test
         (mergedSplit sampleArgs sampleEnv.clf).y_test,
       Event.plotRoc "forest" (some "xgb") (mergedSplit sampleArgs sampleEnv.clf).X_test
         (mergedSplit sampleArgs sampleEnv.clf).y_test,
       Event.plotRoc "logreg" (some "xgb") (mergedSplit sampleArgs sampleEnv.clf).X_test
         (mergedSplit sampleArgs sampleEnv.clf).y_test,
       Event.plotRoc "svc" (some "xgb") (mergedSplit sampleArgs sampleEnv.clf).X_test
         (mergedSplit sampleArgs sampleEnv.clf).y_test] ∧
     (run sampleArgs sampleEnv).1.filter Event.isAcc =
      [Event.accScore "XGBoost" (sampleEnv.sk.score "xgb" 42
         (mergedSplit sampleArgs sampleEnv.clf).X_train
         (mergedSplit sampleArgs sampleEnv.clf).y_train
         (mergedSplit sampleArgs sampleEnv.clf).X_test
         (mergedSplit sampleArgs sampleEnv.clf).y_test),
       Event.accScore "RandomForest" (sampleEnv.sk.score "rforest" 42
         (mergedSplit sampleArgs sampleEnv.clf).X_train
         (mergedSplit sampleArgs sampleEnv.clf).y_train
         (mergedSplit sampleArgs sampleEnv.clf).X_test
         (mergedSplit sampleArgs sampleEnv.clf).y_test),
       Event.accScore "LogisticRegression" (sampleEnv.sk.score "logreg" 42
         (mergedSplit sampleArgs sampleEnv.clf).X_train
         (mergedSplit sampleArgs sampleEnv.clf).y_train
         (mergedSplit sampleArgs sampleEnv.clf).X_test
         (mergedSplit sampleArgs sampleEnv.clf).y_test),
       Event.accScore "SVC" (sampleEnv.sk.score "svc" 42
         (mergedSplit sampleArgs sampleEnv.clf).X_train
         (mergedSplit sampleArgs sampleEnv.clf).y_train
         (mergedSplit sampleArgs sampleEnv.clf).X_test
         (mergedSplit sampleArgs sampleEnv.clf).y_test)] ∧
     (run sampleArgs sampleEnv).2 = none) :=
  ⟨⟨Or.inl rfl, rfl, rfl, rfl⟩,
   claim_c1 sampleArgs sampleEnv (Or.inl rfl) rfl rfl rfl⟩

/-- C2: the autoencoder loss on a batch is the per-row mean squared error
between the model output and the input itself; one training step takes the
gradient of that loss with the gradient tape and applies it with the
optimizer while recording the loss in the mean metric; and the optimizer
the script builds for training is Adam with an inverse-time-decay schedule
— all of these steps being calls into the modelled library primitives. -/
theorem claim_c2 (A : Args) (E : Env) (model : TFModel) (optimizer : Optimizer)
    (tape : GradientTape) (batch : Table) (metric : MeanMetric)
    (hae : A.autoencoder_model = "vanilla" ∨ A.autoencoder_model = "convolutional" ∨
           A.autoencoder_model = "variational")
    (hta : A.train_autoencoder = true) :
    autoencoder_loss_fn (model.forward model.params) batch =
      batch.map (fun r =>
        (List.zipWith (fun a b => (a - b) ^ 2) (model.forward model.params r) r).sum /
          ((model.forward model.params r).length : ℚ)) ∧
    autoencoder_train autoencoder_loss_fn model optimizer tape batch metric =
      (TFModel.mk
        (optimizer.apply_gradients
          (tape.gradient (fun p => (autoencoder_loss_fn (model.forward p) batch).sum)
            model.params) model.params)
        model.forward,
       metric.update (autoencoder_loss_fn (model.forward model.params) batch)) ∧
    Event.buildOptimizer "Adam" "InverseTimeDecay" E.hp.learning_rate ∈ (run A E).1 := by
  refine ⟨rfl, rfl, ?_⟩
  rw [run_eq_of_buildEvent A E _ (buildEvent_of_valid A hae)]
  have hmem : Event.buildOptimizer "Adam" "InverseTimeDecay" E.hp.learning_rate ∈
      trainingEvents A E := by
    simp [trainingEvents, hta]
  simp [List.mem_append, hmem]

/-- Witness for C2 at the sample data: a one-parameter model on the sample
batch. -/
theorem claim_c2_witness :
    ((sampleArgs.autoencoder_model = "vanilla" ∨
      sampleArgs.autoencoder_model = "convolutional" ∨
      sampleArgs.autoencoder_model = "variational") ∧
     sampleArgs.train_autoencoder = true) ∧
    (autoencoder_loss_fn
        ((TFModel.mk [1] (fun _ r => r)).forward (TFModel.mk [1] (fun _ r => r)).params)
        [[1, 2]] =
      [[1, 2]].map (fun r =>
        (List.zipWith (fun a b => (a - b) ^ 2)
          ((TFModel.mk [1] (fun _ r => r)).forward
            (TFModel.mk [1] (fun _ r => r)).params r) r).sum /
          (((TFModel.mk [1] (fun _ r => r)).forward
            (TFModel.mk [1] (fun _ r => r)).params r).length : ℚ)) ∧
     autoencoder_train autoencoder_loss_fn (TFModel.mk [1] (fun _ r => r))
        (Optimizer.mk "Adam" "InverseTimeDecay" 1 (fun _ p => p))
        (GradientTape.mk (fun _ _ => [0])) [[1, 2]] (MeanMetric.mk 0 0) =
      (TFModel.mk
        ((Optimizer.mk "Adam" "InverseTimeDecay" 1 (fun _ p => p)).apply_gradients
          ((GradientTape.mk (fun _ _ => [0])).gradient
            (fun p => (autoencoder_loss_fn
              ((TFModel.mk [1] (fun _ r => r)).forward p) [[1, 2]]).sum)
            (TFModel.mk [1] (fun _ r => r)).params)
          (TFModel.mk [1] (fun _ r => r)).params)
        (TFModel.mk [1] (fun _ r => r)).forward,
       (MeanMetric.mk 0 0).update (autoencoder_loss_fn
          ((TFModel.mk [1] (fun _ r => r)).forward
            (TFModel.mk [1] (fun _ r => r)).params) [[1, 2]])) ∧
     Event.buildOptimizer "Adam" "InverseTimeDecay" sampleEnv.hp.learning_rate ∈
       (run sampleArgs sampleEnv).1) :=
  ⟨⟨Or.inl rfl, rfl⟩,
   claim_c2 sampleArgs sampleEnv (TFModel.mk [1] (fun _ r => r))
     (Optimizer.mk "Adam" "InverseTimeDecay" 1 (fun _ p => p))
     (GradientTape.mk (fun _ _ => [0])) [[1, 2]] (MeanMetric.mk 0 0)
     (Or.inl rfl) rfl⟩

/-- In the merged path, every classifier fit receives the training part of
the split of the merged feature matrix. -/
theorem fit_data_classifierStage_merged (A : Args) (C : ClfEnv) (n : String) (r : ℕ)
    (x : Table) (y : List ℚ)
    (htc : A.train_classifier = true) (hcd : A.classifier_data = "merged")
    (h : Event.fitClf n r x y ∈ (classifierStage A C).1) :
    x = (mergedSplit A C).X_train ∧ y = (mergedSplit A C).y_train := by
  have hf : Event.fitClf n r x y ∈ (classifierStage A C).1.filter Event.isFit :=
    List.mem_filter.mpr ⟨h, rfl⟩
  by_cases hm : A.classifier_model = "all"
  · rw [fit_filter_merged_all A C htc hcd hm] at hf
    simp only [List.mem_cons, List.not_mem_nil, or_false] at hf
    rcases hf with hf | hf | hf | hf <;>
      exact ⟨(Event.fitClf.inj hf).2.2.1, (Event.fitClf.inj hf).2.2.2⟩
  · rw [fit_filter_classifierStage_not_all A C hm] at hf
    simp at hf

/-- C3: in the "merged" classifier-data path (with positive biomed feature
count, rectangular-enough merged rows, and an encoder emitting `latent_dim`
values per row, as the autoencoder does), the feature matrix is, row by row,
the encoder output on the leading omics columns concatenated with the last
`num_biomed_features` columns; every feature row has exactly
`latent_dim + num_biomed_features` entries; `num_biomed_features` is the
column count of the biomed table minus one; and every classifier fit receives
(the training part of the split of) exactly this matrix. -/
theorem claim_c3 (A : Args) (E : Env)
    (hae : A.autoencoder_model = "vanilla" ∨ A.autoencoder_model = "convolutional" ∨
           A.autoencoder_model = "variational")
    (htc : A.train_classifier = true) (hcd : A.classifier_data = "merged")
    (hnb : 0 < num_biomed_features E.clf)
    (henc : ∀ v, (E.encode A.autoencoder_model v).length = E.hp.latent_dim)
    (hrows : ∀ r ∈ (mergedXY E.clf).1, num_biomed_features E.clf ≤ r.length) :
    mergedFeatures A E.clf =
      (mergedXY E.clf).1.map (fun r =>
        E.encode A.autoencoder_model (r.take (r.length - num_biomed_features E.clf)) ++
        r.drop (r.length - num_biomed_features E.clf)) ∧
    (∀ row ∈ mergedFeatures A E.clf,
      row.length = E.hp.latent_dim + num_biomed_features E.clf) ∧
    num_biomed_features E.clf = E.biomedCsv.header.length - 1 ∧
    (∀ n r x y, Event.fitClf n r x y ∈ (run A E).1 →
      x = (mergedSplit A E.clf).X_train ∧ y = (mergedSplit A E.clf).y_train) := by
  refine ⟨mergedFeatures_eq A E.clf hnb henc hrows,
    mergedFeatures_row_length A E.clf hnb henc hrows, rfl, ?_⟩
  intro n r x y hmem
  have hf : Event.fitClf n r x y ∈ (run A E).1.filter Event.isFit :=
    List.mem_filter.mpr ⟨hmem, rfl⟩
  rw [filter_run A E Event.isFit (fun _ => rfl) (fun _ _ => rfl) (fun _ => rfl)
    (fun _ _ _ => rfl) (fun _ => rfl) (fun _ => rfl) (fun _ _ _ => rfl)
    (fun _ _ => rfl) (fun _ => rfl) (fun _ _ _ => rfl) (fun _ _ => rfl),
    buildEvent_of_valid A hae] at hf
  exact fit_data_classifierStage_merged A E.clf n r x y htc hcd
    (List.mem_filter.mp hf).1

/-- Witness for C3 at the sample data. -/
theorem claim_c3_witness :
    ((sampleArgs.autoencoder_model = "vanilla" ∨
      sampleArgs.autoencoder_model = "convolutional" ∨
      sampleArgs.autoencoder_model = "variational") ∧
     sampleArgs.train_classifier = true ∧ sampleArgs.classifier_data = "merged" ∧
     0 < num_biomed_features sampleEnv.clf ∧
     (∀ v, (sampleEnv.encode sampleArgs.autoencoder_model v).length =
        sampleEnv.hp.latent_dim) ∧
     (∀ r ∈ (mergedXY sampleEnv.clf).1, num_biomed_features sampleEnv.clf ≤ r.length)) ∧
    (mergedFeatures sampleArgs sampleEnv.clf =
      (mergedXY sampleEnv.clf).1.map (fun r =>
        sampleEnv.encode sampleArgs.autoencoder_model
          (r.take (r.length - num_biomed_features sampleEnv.clf)) ++
        r.drop (r.length - num_biomed_features sampleEnv.clf)) ∧
     (∀ row ∈ mergedFeatures sampleArgs sampleEnv.clf,
        row.length = sampleEnv.hp.latent_dim + num_biomed_features sampleEnv.clf) ∧
     num_biomed_features sampleEnv.clf = sampleEnv.biomedCsv.header.length - 1 ∧
     (∀ n r x y, Event.fitClf n r x y ∈ (run sampleArgs sampleEnv).1 →
        x = (mergedSplit sampleArgs sampleEnv.clf).X_train ∧
        y = (mergedSplit sampleArgs sampleEnv.clf).y_train)) :=
  ⟨⟨Or.inl rfl, rfl, rfl, by decide, fun _ => rfl, by decide⟩,
   claim_c3 sampleArgs sampleEnv (Or.inl rfl) rfl rfl (by decide)
     (fun _ => rfl) (by decide)⟩

/-- C4: with the classifier stage active on the merged path, asking for the
unfinished models — `--classifier-model vanilla_nn` or `all_optimization`
(the hyperparameter-search / stacking code) — terminates the program with
"Not finished!" before any model is fitted. -/
theorem claim_c4 (A : Args) (E : Env)
    (hae : A.autoencoder_model = "vanilla" ∨ A.autoencoder_model = "convolutional" ∨
           A.autoencoder_model = "variational")
    (htc : A.train_classifier = true) (hcd : A.classifier_data = "merged")
    (hm : A.classifier_model = "vanilla_nn" ∨ A.classifier_model = "all_optimization") :
    (run A E).2 = some "Not finished!" ∧
    (run A E).1.filter Event.isFit = [] := by
  constructor
  · rw [run_eq_of_buildEvent A E _ (buildEvent_of_valid A hae)]
    exact classifierStage_exit_notfinished A E.clf htc hcd hm
  · rw [filter_run A E Event.isFit (fun _ => rfl) (fun _ _ => rfl) (fun _ => rfl)
      (fun _ _ _ => rfl) (fun _ => rfl) (fun _ => rfl) (fun _ _ _ => rfl)
      (fun _ _ => rfl) (fun _ => rfl) (fun _ _ _ => rfl) (fun _ _ => rfl),
      buildEvent_of_valid A hae]
    refine fit_filter_classifierStage_not_all A E.clf ?_
    rcases hm with hm | hm <;> simp [hm]

/-- Witness for C4 at the sample data with `--classifier-model vanilla_nn`. -/
theorem claim_c4_witness :
    ((sampleArgsNN.autoencoder_model = "vanilla" ∨
      sampleArgsNN.autoencoder_model = "convolutional" ∨
      sampleArgsNN.autoencoder_model = "variational") ∧
     sampleArgsNN.train_classifier = true ∧ sampleArgsNN.classifier_data = "merged" ∧
     (sampleArgsNN.classifier_model = "vanilla_nn" ∨
      sampleArgsNN.classifier_model = "all_optimization")) ∧
    ((run sampleArgsNN sampleEnv).2 = some "Not finished!" ∧
     (run sampleArgsNN sampleEnv).1.filter Event.isFit = []) :=
  ⟨⟨Or.inl rfl, rfl, rfl, Or.inl rfl⟩,
   claim_c4 sampleArgsNN sampleEnv (Or.inl rfl) rfl rfl (Or.inl rfl)⟩

/-- C5: evaluation uses a deterministic held-out split.  The classifier
events (the split and every fit, ROC plot, accuracy score and saved figure)
depend only on the classifier inputs — two runs over environments that agree
on the CSV files, the encoder, the hyperparameters and the seeded library
behaviour produce identical classifier traces, whatever the clock or
filesystem say; the split is requested with `test_size = 1/5` and
`random_state = 42`; every classifier fit is seeded with 42; and the split
reserves exactly `ceil(n/5)` of the `n` feature rows for testing. -/
theorem claim_c5 (A : Args) (E Ep : Env)
    (hsk : E.sk = Ep.sk) (hbio : E.biomedCsv = Ep.biomedCsv)
    (hmer : E.mergedCsv = Ep.mergedCsv) (henc : E.encode = Ep.encode)
    (hhp : E.hp = Ep.hp)
    (htc : A.train_classifier = true) (hcd : A.classifier_data = "merged")
    (hlen : (E.sk.shuffle 42 (mergedFeatures A E.clf).length).length =
      (mergedFeatures A E.clf).length)
    (hidx : ∀ i ∈ E.sk.shuffle 42 (mergedFeatures A E.clf).length,
      i < (mergedFeatures A E.clf).length) :
    (run A E).1.filter Event.isClfEvent = (run A Ep).1.filter Event.isClfEvent ∧
    Event.splitCall (1/5) 42 ∈ (classifierStage A E.clf).1 ∧
    (∀ n r x y, Event.fitClf n r x y ∈ (run A E).1 → r = 42) ∧
    (mergedSplit A E.clf).X_test.length =
      (⌈(1 : ℚ)/5 * ((mergedFeatures A E.clf).length : ℚ)⌉).toNat := by
  have hclf : E.clf = Ep.clf := by
    simp only [Env.clf]
    rw [hsk, hbio, hmer, henc, hhp]
  refine ⟨?_, ?_, ?_, ?_⟩
  · rw [filter_run A E Event.isClfEvent (fun _ => rfl) (fun _ _ => rfl) (fun _ => rfl)
      (fun _ _ _ => rfl) (fun _ => rfl) (fun _ => rfl) (fun _ _ _ => rfl)
      (fun _ _ => rfl) (fun _ => rfl) (fun _ _ _ => rfl) (fun _ _ => rfl),
      filter_run A Ep Event.isClfEvent (fun _ => rfl) (fun _ _ => rfl) (fun _ => rfl)
      (fun _ _ _ => rfl) (fun _ => rfl) (fun _ => rfl) (fun _ _ _ => rfl)
      (fun _ _ => rfl) (fun _ => rfl) (fun _ _ _ => rfl) (fun _ _ => rfl),
      hclf]
  · simp only [classifierStage, htc, Bool.not_true, Bool.false_eq_true, if_false]
    rw [if_pos hcd]
    exact splitCall_mem_afterSplit A E.clf _ _ _
  · intro n r x y hmem
    have hf : Event.fitClf n r x y ∈ (run A E).1.filter Event.isFit :=
      List.mem_filter.mpr ⟨hmem, rfl⟩
    rw [filter_run A E Event.isFit (fun _ => rfl) (fun _ _ => rfl) (fun _ => rfl)
      (fun _ _ _ => rfl) (fun _ => rfl) (fun _ => rfl) (fun _ _ _ => rfl)
      (fun _ _ => rfl) (fun _ => rfl) (fun _ _ _ => rfl) (fun _ _ => rfl)] at hf
    cases hb : buildEvent A with
    | none =>
      rw [hb] at hf
      simp at hf
    | some be =>
      rw [hb] at hf
      exact fit_seed_classifierStage A E.clf n r x y (List.mem_filter.mp hf).1
  · exact length_X_test_split E.sk.shuffle (mergedFeatures A E.clf)
      (mergedXY E.clf).2 hlen hidx

/-- Witness for C5: the same sample environment on both sides. -/
theorem claim_c5_witness :
    (sampleEnv.sk = sampleEnv.sk ∧ sampleEnv.biomedCsv = sampleEnv.biomedCsv ∧
     sampleEnv.mergedCsv = sampleEnv.mergedCsv ∧ sampleEnv.encode = sampleEnv.encode ∧
     sampleEnv.hp = sampleEnv.hp ∧
     sampleArgs.train_classifier = true ∧ sampleArgs.classifier_data = "merged" ∧
     (sampleEnv.sk.shuffle 42 (mergedFeatures sampleArgs sampleEnv.clf).length).length =
       (mergedFeatures sampleArgs sampleEnv.clf).length ∧
     (∀ i ∈ sampleEnv.sk.shuffle 42 (mergedFeatures sampleArgs sampleEnv.clf).length,
       i < (mergedFeatures sampleArgs sampleEnv.clf).length)) ∧
    ((run sampleArgs sampleEnv).1.filter Event.isClfEvent =
       (run sampleArgs sampleEnv).1.filter Event.isClfEvent ∧
     Event.splitCall (1/5) 42 ∈ (classifierStage sampleArgs sampleEnv.clf).1 ∧
     (∀ n r x y, Event.fitClf n r x y ∈ (run sampleArgs sampleEnv).1 → r = 42) ∧
     (mergedSplit sampleArgs sampleEnv.clf).X_test.length =
       (⌈(1 : ℚ)/5 * ((mergedFeatures sampleArgs sampleEnv.clf).length : ℚ)⌉).toNat) :=
  ⟨⟨rfl, rfl, rfl, rfl, rfl, rfl, rfl, by decide, by decide⟩,
   claim_c5 sampleArgs sampleEnv sampleEnv rfl rfl rfl rfl rfl rfl rfl
     (by decide) (by decide)⟩

/-- C6: the pipeline loads the omics CSV with its first column as the index
and transposes it (rows become patients, columns features); the printed
patient and feature counts are exactly the row and column counts of that
transposed table; and the shape print precedes the autoencoder build, with
nothing before it printing a shape or building a model. -/
theorem claim_c6 (A : Args) (E : Env)
    (hae : A.autoencoder_model = "vanilla" ∨ A.autoencoder_model = "convolutional" ∨
           A.autoencoder_model = "variational") :
    omicsTable E = List.transpose E.omicsCsv.data ∧
    (∃ rest, (run A E).1 =
      preludeEvents A E ++
        Event.printShape (lastComponent A.omics_data) (omicsTable E).length
          ((omicsTable E).headD []).length ::
        Event.buildAutoencoder A.autoencoder_model :: rest) ∧
    (∀ e ∈ preludeEvents A E, e.isShapeLine = false ∧ e.isBuild = false) := by
  refine ⟨rfl, ?_, ?_⟩
  · refine ⟨(loadWEvents A ++ trainingEvents A E) ++ (classifierStage A E.clf).1, ?_⟩
    rw [run_eq_of_buildEvent A E _ (buildEvent_of_valid A hae)]
    simp [loadEvents, List.append_assoc]
  · intro e he
    have h := mem_preludeEvents A E e he
    exact ⟨h.1, h.2.1⟩

/-- Witness for C6 at the sample data. -/
theorem claim_c6_witness :
    (sampleArgs.autoencoder_model = "vanilla" ∨
     sampleArgs.autoencoder_model = "convolutional" ∨
     sampleArgs.autoencoder_model = "variational") ∧
    (omicsTable sampleEnv = List.transpose sampleEnv.omicsCsv.data ∧
     (∃ rest, (run sampleArgs sampleEnv).1 =
       preludeEvents sampleArgs sampleEnv ++
         Event.printShape (lastComponent sampleArgs.omics_data)
           (omicsTable sampleEnv).length ((omicsTable sampleEnv).headD []).length ::
         Event.buildAutoencoder sampleArgs.autoencoder_model :: rest) ∧
     (∀ e ∈ preludeEvents sampleArgs sampleEnv,
       e.isShapeLine = false ∧ e.isBuild = false)) :=
  ⟨Or.inl rfl, claim_c6 sampleArgs sampleEnv (Or.inl rfl)⟩

/-- C7: the checkpoint and log directories for a run are
`./output/checkpoints/<timestamp>_<model>/` and
`./output/logs/<timestamp>_<model>/`; the two directories are created if and
only if `--train-autoencoder` is given and neither path already exists; and
the per-epoch weight files are named `epoch_<n>` with `n` counting from 0. -/
theorem claim_c7 (A : Args) (E : Env) :
    checkpoint_path E.timestamp A.autoencoder_model =
      "./output/checkpoints/" ++ E.timestamp ++ "_" ++ A.autoencoder_model ++ "/" ∧
    logs_path E.timestamp A.autoencoder_model =
      "./output/logs/" ++ E.timestamp ++ "_" ++ A.autoencoder_model ++ "/" ∧
    (run A E).1.filter Event.isMkdir =
      (if !E.pathExists (checkpoint_path E.timestamp A.autoencoder_model) &&
          !E.pathExists (E.abspath (logs_path E.timestamp A.autoencoder_model)) &&
          A.train_autoencoder then
        [Event.makedirs (checkpoint_path E.timestamp A.autoencoder_model),
         Event.makedirs (E.abspath (logs_path E.timestamp A.autoencoder_model))]
      else []) ∧
    ((A.autoencoder_model = "vanilla" ∨ A.autoencoder_model = "convolutional" ∨
      A.autoencoder_model = "variational") → A.train_autoencoder = true →
      A.no_save = false →
      (run A E).1.filter Event.isSave =
        (List.range E.hp.num_epochs).map (fun n =>
          Event.saveWeights (checkpoint_path E.timestamp A.autoencoder_model ++
            osSep ++ "epoch_" ++ toString n))) := by
  refine ⟨rfl, rfl, ?_, ?_⟩
  · rw [mkdir_filter_run, mkdir_filter_prelude]
  · intro hae hta hns
    rw [filter_run_decomp A E _ Event.isSave (buildEvent_of_valid A hae)
      (fun _ => rfl) (fun _ _ => rfl) (fun _ => rfl) (fun _ _ _ => rfl)
      (fun _ => rfl) (fun _ => rfl)]
    rw [save_filter_trainingEvents A E hta hns,
      filter_classifierStage A E.clf Event.isSave (fun _ _ _ => rfl) (fun _ => rfl)
        (fun _ _ => rfl) (fun _ _ _ _ => rfl) (fun _ _ _ _ => rfl)
        (fun _ _ _ _ => rfl) (fun _ _ => rfl) (fun _ => rfl),
      List.append_nil]

/-- Witness for C7 at the sample data. -/
theorem claim_c7_witness :
    checkpoint_path sampleEnv.timestamp sampleArgs.autoencoder_model =
      "./output/checkpoints/" ++ sampleEnv.timestamp ++ "_" ++
        sampleArgs.autoencoder_model ++ "/" ∧
    logs_path sampleEnv.timestamp sampleArgs.autoencoder_model =
      "./output/logs/" ++ sampleEnv.timestamp ++ "_" ++
        sampleArgs.autoencoder_model ++ "/" ∧
    (run sampleArgs sampleEnv).1.filter Event.isMkdir =
      (if !sampleEnv.pathExists
            (checkpoint_path sampleEnv.timestamp sampleArgs.autoencoder_model) &&
          !sampleEnv.pathExists (sampleEnv.abspath
            (logs_path sampleEnv.timestamp sampleArgs.autoencoder_model)) &&
          sampleArgs.train_autoencoder then
        [Event.makedirs (checkpoint_path sampleEnv.timestamp sampleArgs.autoencoder_model),
         Event.makedirs (sampleEnv.abspath
           (logs_path sampleEnv.timestamp sampleArgs.autoencoder_model))]
      else []) ∧
    ((sampleArgs.autoencoder_model = "vanilla" ∨
      sampleArgs.autoencoder_model = "convolutional" ∨
      sampleArgs.autoencoder_model = "variational") →
      sampleArgs.train_autoencoder = true → sampleArgs.no_save = false →
      (run sampleArgs sampleEnv).1.filter Event.isSave =
        (List.range sampleEnv.hp.num_epochs).map (fun n =>
          Event.saveWeights (checkpoint_path sampleEnv.timestamp
            sampleArgs.autoencoder_model ++ osSep ++ "epoch_" ++ toString n))) :=
  claim_c7 sampleArgs sampleEnv

/-- C8: the `--classifier-model` help advertises "all, xgb, rforest,
logreg", but any value other than "all", "vanilla_nn" or "all_optimization"
— including "xgb", "rforest" and "logreg" — terminates the classifier run
with "Wrong model for classifier!" and no classifier is fitted. -/
theorem claim_c8 (A : Args) (E : Env)
    (hae : A.autoencoder_model = "vanilla" ∨ A.autoencoder_model = "convolutional" ∨
           A.autoencoder_model = "variational")
    (htc : A.train_classifier = true) (hcd : A.classifier_data = "merged")
    (hm : ¬(A.classifier_model = "all" ∨ A.classifier_model = "vanilla_nn" ∨
            A.classifier_model = "all_optimization")) :
    classifier_model_help = "types of model to use, all, xgb, rforest, logreg" ∧
    (run A E).2 = some "Wrong model for classifier!" ∧
    (run A E).1.filter Event.isFit = [] := by
  push_neg at hm
  refine ⟨rfl, ?_, ?_⟩
  · rw [run_eq_of_buildEvent A E _ (buildEvent_of_valid A hae)]
    exact classifierStage_exit_wrong A E.clf htc hcd hm.1 hm.2.1 hm.2.2
  · rw [filter_run A E Event.isFit (fun _ => rfl) (fun _ _ => rfl) (fun _ => rfl)
      (fun _ _ _ => rfl) (fun _ => rfl) (fun _ => rfl) (fun _ _ _ => rfl)
      (fun _ _ => rfl) (fun _ => rfl) (fun _ _ _ => rfl) (fun _ _ => rfl),
      buildEvent_of_valid A hae]
    exact fit_filter_classifierStage_not_all A E.clf hm.1

/-- Witness for C8 at the sample data with the advertised value "xgb". -/
theorem claim_c8_witness :
    ((sampleArgsXgb.autoencoder_model = "vanilla" ∨
      sampleArgsXgb.autoencoder_model = "convolutional" ∨
      sampleArgsXgb.autoencoder_model = "variational") ∧
     sampleArgsXgb.train_classifier = true ∧ sampleArgsXgb.classifier_data = "merged" ∧
     ¬(sampleArgsXgb.classifier_model = "all" ∨
       sampleArgsXgb.classifier_model = "vanilla_nn" ∨
       sampleArgsXgb.classifier_model = "all_optimization")) ∧
    (classifier_model_help = "types of model to use, all, xgb, rforest, logreg" ∧
     (run sampleArgsXgb sampleEnv).2 = some "Wrong model for classifier!" ∧
     (run sampleArgsXgb sampleEnv).1.filter Event.isFit = []) :=
  ⟨⟨Or.inl rfl, rfl, rfl, by decide⟩,
   claim_c8 sampleArgsXgb sampleEnv (Or.inl rfl) rfl rfl (by decide)⟩

/-- C9: with both `--train-autoencoder` and `--no-save`, no per-epoch
weight checkpoint is written but the per-epoch line is still appended to
`loss.log` under the logs path for every epoch — `--no-save` suppresses
only the weight saving, not the log-file write. -/
theorem claim_c9 (A : Args) (E : Env)
    (hae : A.autoencoder_model = "vanilla" ∨ A.autoencoder_model = "convolutional" ∨
           A.autoencoder_model = "variational")
    (hta : A.train_autoencoder = true) (hns : A.no_save = true) :
    (run A E).1.filter Event.isSave = [] ∧
    (run A E).1.filter Event.isLogLine =
      (List.range E.hp.num_epochs).map (fun n =>
        Event.logLine (E.abspath (logs_path E.timestamp A.autoencoder_model) ++ "/loss.log")
          (n + 1) (E.epochLoss n)) := by
  constructor
  · rw [filter_run_decomp A E _ Event.isSave (buildEvent_of_valid A hae)
      (fun _ => rfl) (fun _ _ => rfl) (fun _ => rfl) (fun _ _ _ => rfl)
      (fun _ => rfl) (fun _ => rfl)]
    rw [save_filter_trainingEvents_nosave A E hns,
      filter_classifierStage A E.clf Event.isSave (fun _ _ _ => rfl) (fun _ => rfl)
        (fun _ _ => rfl) (fun _ _ _ _ => rfl) (fun _ _ _ _ => rfl)
        (fun _ _ _ _ => rfl) (fun _ _ => rfl) (fun _ => rfl)]
    rfl
  · rw [filter_run_decomp A E _ Event.isLogLine (buildEvent_of_valid A hae)
      (fun _ => rfl) (fun _ _ => rfl) (fun _ => rfl) (fun _ _ _ => rfl)
      (fun _ => rfl) (fun _ => rfl)]
    rw [log_filter_trainingEvents A E hta,
      filter_classifierStage A E.clf Event.isLogLine (fun _ _ _ => rfl) (fun _ => rfl)
        (fun _ _ => rfl) (fun _ _ _ _ => rfl) (fun _ _ _ _ => rfl)
        (fun _ _ _ _ => rfl) (fun _ _ => rfl) (fun _ => rfl),
      List.append_nil]

/-- Witness for C9 at the sample data with `--no-save`. -/
theorem claim_c9_witness :
    ((sampleArgsNoSave.autoencoder_model = "vanilla" ∨
      sampleArgsNoSave.autoencoder_model = "convolutional" ∨
      sampleArgsNoSave.autoencoder_model = "variational") ∧
     sampleArgsNoSave.train_autoencoder = true ∧ sampleArgsNoSave.no_save = true) ∧
    ((run sampleArgsNoSave sampleEnv).1.filter Event.isSave = [] ∧
     (run sampleArgsNoSave sampleEnv).1.filter Event.isLogLine =
       (List.range sampleEnv.hp.num_epochs).map (fun n =>
         Event.logLine (sampleEnv.abspath (logs_path sampleEnv.timestamp
           sampleArgsNoSave.autoencoder_model) ++ "/loss.log")
           (n + 1) (sampleEnv.epochLoss n))) :=
  ⟨⟨Or.inl rfl, rfl, rfl⟩,
   claim_c9 sampleArgsNoSave sampleEnv (Or.inl rfl) rfl rfl⟩

/-- C10: any `--autoencoder-model` other than "vanilla", "convolutional" or
"variational" makes the script exit with "Wrong model for autoencoder!"
after the omics CSV has been loaded and its shape printed, with no model
built, nothing trained or saved or logged, and no classifier event. -/
theorem claim_c10 (A : Args) (E : Env)
    (hae : ¬(A.autoencoder_model = "vanilla" ∨ A.autoencoder_model = "convolutional" ∨
             A.autoencoder_model = "variational")) :
    (run A E).2 = some "Wrong model for autoencoder!" ∧
    (run A E).1 = preludeEvents A E ++
      [Event.printShape (lastComponent A.omics_data) (omicsTable E).length
        ((omicsTable E).headD []).length] ∧
    (∀ e ∈ (run A E).1, e.isBuild = false ∧ e.isFit = false ∧ e.isSave = false ∧
      e.isLogLine = false ∧ e.isClfEvent = false) := by
  have hb := buildEvent_of_invalid A hae
  refine ⟨?_, ?_, ?_⟩
  · simp [run, hb]
  · simp only [run, hb]
    rfl
  · intro e he
    simp only [run, hb] at he
    simp only [loadEvents, List.mem_append, List.mem_singleton] at he
    rcases he with he | rfl
    · have h := mem_preludeEvents A E e he
      exact ⟨h.2.1, h.2.2.1, h.2.2.2.1, h.2.2.2.2.1, h.2.2.2.2.2⟩
    · exact ⟨rfl, rfl, rfl, rfl, rfl⟩

/-- Witness for C10 at the sample data with an unrecognized model name. -/
theorem claim_c10_witness :
    (¬(sampleArgsBadAE.autoencoder_model = "vanilla" ∨
       sampleArgsBadAE.autoencoder_model = "convolutional" ∨
       sampleArgsBadAE.autoencoder_model = "variational")) ∧
    ((run sampleArgsBadAE sampleEnv).2 = some "Wrong model for autoencoder!" ∧
     (run sampleArgsBadAE sampleEnv).1 = preludeEvents sampleArgsBadAE sampleEnv ++
       [Event.printShape (lastComponent sampleArgsBadAE.omics_data)
         (omicsTable sampleEnv).length ((omicsTable sampleEnv).headD []).length] ∧
     (∀ e ∈ (run sampleArgsBadAE sampleEnv).1, e.isBuild = false ∧ e.isFit = false ∧
       e.isSave = false ∧ e.isLogLine = false ∧ e.isClfEvent = false)) :=
  ⟨by decide, claim_c10 sampleArgsBadAE sampleEnv (by decide)⟩

end MultiOmics
